import Mathlib

/-!
TickBoard greeting server (`src/app/server.js`).

A shallow embedding of the eleven lines of `server.js`:

```
const express = require('express');
const app = express();
const PORT = process.env.PORT || 3000;
app.get('/', (req, res) => { res.type('text/plain').send('Hello ...'); });
app.listen(PORT, () => { console.log(`Server listening on port ${PORT}`); });
```

The program is written against three interfaces: the JavaScript language
(`||`, template literals), the Node runtime (`process.env`, `listen`,
`console.log`) and the Express 4 application API (`app.get`, `res.type`,
`res.send`, the router and its final handler).  Each of them is embedded as
far as the program exercises it; every definition names the construct it
stands for.
-/

namespace Server

/-! ## JavaScript values -/

/-- The JavaScript values the program computes with: `undefined` (a missing
environment variable), strings (environment variables are always strings) and
the number literal `3000`. -/
inductive JSValue where
  | undefined
  | str (s : String)
  | num (n : Nat)
  deriving DecidableEq, Repr

/-- Result of the `typeof` operator. -/
inductive JSType where
  | undefined
  | string
  | number
  deriving DecidableEq, Repr

/-- The `typeof` operator. -/
def JSValue.typeof : JSValue → JSType
  | .undefined => .undefined
  | .str _ => .string
  | .num _ => .number

/-- ToBoolean: `undefined`, the empty string and `0` are falsy. -/
def JSValue.truthy : JSValue → Bool
  | .undefined => false
  | .str s => s != ""
  | .num n => n != 0

/-- The operator `a || b`: `a` when it is truthy, `b` otherwise. -/
def JSValue.or (a b : JSValue) : JSValue :=
  if a.truthy then a else b

/-- ToString, as applied by a template literal `${v}`. -/
def JSValue.toStr : JSValue → String
  | .undefined => "undefined"
  | .str s => s
  | .num n => toString n

/-! ## Environment and port -/

/-- The process environment: a variable is unset (`none`) or holds a string. -/
abbrev Env := String → Option String

/-- Property read `process.env[name]`. -/
def processEnv (env : Env) (name : String) : JSValue :=
  match env name with
  | none => .undefined
  | some s => .str s

/-- Line 3: `const PORT = process.env.PORT || 3000;`. -/
def PORT (env : Env) : JSValue :=
  (processEnv env "PORT").or (.num 3000)

/-- Line 10: the template literal of the start-up message. -/
def logLine (port : JSValue) : String :=
  "Server listening on port " ++ port.toStr

/-! ## Listening socket (Node `net.Server.listen`) -/

/-- A string made of decimal digits only, and at least one. -/
def isDecimal (s : String) : Bool :=
  !s.data.isEmpty && s.data.all Char.isDigit

/-- Value of a digit list read from the left, starting from `acc`. -/
def digitsValue (acc : Nat) (ds : List Char) : Nat :=
  ds.foldl (fun acc c => 10 * acc + (c.toNat - 48)) acc

/-- Value of a decimal digit string. -/
def decimalValue (s : String) : Nat :=
  digitsValue 0 s.data

/-- The regular-expression class `\s`; also what `String.prototype.trim`
strips. -/
def isJsSpace (c : Char) : Bool :=
  let n := c.toNat
  n == 32 || (9 ≤ n && n ≤ 13) || n == 160 || n == 5760 || (8192 ≤ n && n ≤ 8202) ||
    n == 8232 || n == 8233 || n == 8239 || n == 8287 || n == 12288 || n == 65279

/-- How JavaScript's `Number(text)` reads a text, as far as `listen` looks at
the result. -/
inductive NumberReading where
  /-- The text is no numeral (`NaN`). -/
  | notANumber
  /-- A number below zero. -/
  | negative
  /-- A non-negative integer. -/
  | natural (n : Nat)
  /-- A non-negative number that is no integer, or `Infinity`. -/
  | fractional
  deriving DecidableEq, Repr

/-- What `listen` is asked to bind, after Node has read its first argument. -/
inductive ListenTarget where
  /-- A fixed TCP port, `1 ≤ n ≤ 65535`. -/
  | port (n : Nat)
  /-- Port `0` (or no port): the kernel assigns a free port. -/
  | anyPort
  /-- A value `validatePort` refuses: `listen` throws `ERR_SOCKET_BAD_PORT`. -/
  | badPort
  /-- A pipe name: a local socket at that path. -/
  | pipe (path : String)
  deriving DecidableEq, Repr

/-- Target of a numeric port (`validatePort`, then `port | 0`): an integer
above 65535 is refused, `0` asks for any port. -/
def ListenTarget.ofNat (n : Nat) : ListenTarget :=
  if n = 0 then .anyPort else if n ≤ 65535 then .port n else .badPort

/-- Target of the first argument of `listen` (`net.Server.prototype.listen`).
`number` is `Number` on the texts that are not plain decimal numerals; a
plain decimal numeral reads as its value.  A string that `Number` reads as
`NaN` or below zero is a pipe name (`isPipeName`); any other string is a
port and goes through `validatePort`, which refuses a blank text and
whatever is not an integer up to 65535. -/
def listenTarget (number : String → NumberReading) : JSValue → ListenTarget
  | .undefined => .anyPort
  | .num n => .ofNat n
  | .str s =>
    if isDecimal s then .ofNat (decimalValue s)
    else
      match number s with
      | .notANumber => .pipe s
      | .negative => .pipe s
      | .natural n => if s.data.all isJsSpace then .badPort else .ofNat n
      | .fractional => .badPort

/-- An address a listening socket is bound to: a TCP port or the path of a
local socket. -/
inductive Endpoint where
  | tcp (port : Nat)
  | named (path : String)
  deriving DecidableEq, Repr

/-- The endpoints currently bound on the host, by any process. -/
abbrev Net := List Endpoint

/-- Why a `listen` call failed. -/
inductive ListenError where
  /-- The endpoint is bound already (`EADDRINUSE`). -/
  | addrInUse
  /-- The port is out of range (`ERR_SOCKET_BAD_PORT`). -/
  | badPort
  deriving DecidableEq, Repr

/-- One bind attempt.  `eph` is the port the kernel hands out when asked for
any free port.  A failed attempt leaves the table as it was. -/
def bindEndpoint (net : Net) (eph : Nat) : ListenTarget → Except ListenError (Endpoint × Net)
  | .badPort => .error .badPort
  | .anyPort => .ok (.tcp eph, .tcp eph :: net)
  | .port n =>
    if Endpoint.tcp n ∈ net then .error .addrInUse else .ok (.tcp n, .tcp n :: net)
  | .pipe s =>
    if Endpoint.named s ∈ net then .error .addrInUse else .ok (.named s, .named s :: net)

/-! ## HTTP requests -/

/-- Request methods accepted by Node's HTTP parser (`http.METHODS`). -/
inductive Method where
  | ACL | BIND | CHECKOUT | CONNECT | COPY | DELETE | GET | HEAD | LINK | LOCK
  | MSEARCH | MERGE | MKACTIVITY | MKCALENDAR | MKCOL | MOVE | NOTIFY | OPTIONS
  | PATCH | POST | PROPFIND | PROPPATCH | PURGE | PUT | REBIND | REPORT | SEARCH
  | SOURCE | SUBSCRIBE | TRACE | UNBIND | UNLINK | UNLOCK | UNSUBSCRIBE
  deriving DecidableEq, Repr

/-- The text of `req.method`. -/
def Method.name : Method → String
  | .ACL => "ACL" | .BIND => "BIND" | .CHECKOUT => "CHECKOUT" | .CONNECT => "CONNECT"
  | .COPY => "COPY" | .DELETE => "DELETE" | .GET => "GET" | .HEAD => "HEAD"
  | .LINK => "LINK" | .LOCK => "LOCK" | .MSEARCH => "M-SEARCH" | .MERGE => "MERGE"
  | .MKACTIVITY => "MKACTIVITY" | .MKCALENDAR => "MKCALENDAR" | .MKCOL => "MKCOL"
  | .MOVE => "MOVE" | .NOTIFY => "NOTIFY" | .OPTIONS => "OPTIONS" | .PATCH => "PATCH"
  | .POST => "POST" | .PROPFIND => "PROPFIND" | .PROPPATCH => "PROPPATCH"
  | .PURGE => "PURGE" | .PUT => "PUT" | .REBIND => "REBIND" | .REPORT => "REPORT"
  | .SEARCH => "SEARCH" | .SOURCE => "SOURCE" | .SUBSCRIBE => "SUBSCRIBE"
  | .TRACE => "TRACE" | .UNBIND => "UNBIND" | .UNLINK => "UNLINK" | .UNLOCK => "UNLOCK"
  | .UNSUBSCRIBE => "UNSUBSCRIBE"

/-- Header fields; Node hands request header names over in lower case, and
response headers are stored under their lower-case name. -/
abbrev Headers := List (String × String)

/-- Field lookup; `none` stands for `undefined`. -/
def Headers.get (h : Headers) (name : String) : Option String :=
  (h.find? (fun kv => kv.1 == name)).map (fun kv => kv.2)

/-- An incoming request.  `path` is the path name of the request target
(what is left of the first `?`), `query` what follows it.  The request target
of an HTTP request is never empty, hence `path_ne`. -/
structure Request where
  method : Method
  path : String
  query : String
  headers : Headers
  body : String
  path_ne : path ≠ ""

/-! ## String helpers -/

/-- Function `String.prototype.toLowerCase` on ASCII text. -/
def lower (s : String) : String :=
  ⟨s.data.map Char.toLower⟩

/-- Function `String.prototype.toUpperCase` on ASCII text. -/
def upper (s : String) : String :=
  ⟨s.data.map Char.toUpper⟩

/-- Text without leading and trailing `\s` characters. -/
def trimSpace (cs : List Char) : List Char :=
  ((cs.dropWhile isJsSpace).reverse.dropWhile isJsSpace).reverse

/-- The pieces of a text between occurrences of `sep` (`split`). -/
def splitAt (sep : Char) : List Char → List (List Char)
  | [] => [[]]
  | c :: cs =>
    if c = sep then [] :: splitAt sep cs
    else
      match splitAt sep cs with
      | [] => [[c]]
      | p :: ps => (c :: p) :: ps

/-- Rest of `cs` after the leading text `pre`, when `cs` starts with it. -/
def stripLeading : List Char → List Char → Option (List Char)
  | [], cs => some cs
  | _ :: _, [] => none
  | p :: ps, c :: cs => if p = c then stripLeading ps cs else none

/-! ## The response object (`http.ServerResponse` with Express's additions) -/

/-- Errors a JavaScript call of the handler chain can throw. -/
inductive JSError where
  /-- A header is set after the head was written (`ERR_HTTP_HEADERS_SENT`). -/
  | headersSent
  deriving DecidableEq, Repr

/-- State of the response object `res`.  `req` is the request it answers
(`res.req`), `finished` tells that `end` was called: head and body are on the
wire and `body` is what was written. -/
structure Res where
  req : Request
  statusCode : Nat
  headers : Headers
  finished : Bool
  body : String

/-- Function `res.getHeader(name)` (also `res.get`). -/
def Res.get (res : Res) (name : String) : Option String :=
  res.headers.get (lower name)

/-- Function `res.setHeader(name, value)`: throws once the head is written. -/
def Res.setHeader (res : Res) (name value : String) : Except JSError Res :=
  if res.finished then .error .headersSent
  else
    .ok { res with
      headers := (lower name, value) :: res.headers.filter (fun kv => kv.1 != lower name) }

/-- Function `res.removeHeader(name)`: throws once the head is written. -/
def Res.removeHeader (res : Res) (name : String) : Except JSError Res :=
  if res.finished then .error .headersSent
  else .ok { res with headers := res.headers.filter (fun kv => kv.1 != lower name) }

/-- Function `res.end(chunk)`: writes head and body; a second call is ignored. -/
def Res.finish (res : Res) (chunk : String) : Res :=
  if res.finished then res else { res with finished := true, body := chunk }

/-- Test of `/;\s*charset\s*=/` right after a `;`. -/
def charsetFollows (cs : List Char) : Bool :=
  match stripLeading "charset".data (cs.dropWhile isJsSpace) with
  | some rest => (rest.dropWhile isJsSpace).head? == some '='
  | none => false

/-- Test of `charsetRegExp = /;\s*charset\s*=/`. -/
def hasCharset : List Char → Bool
  | [] => false
  | c :: cs => (c == ';' && charsetFollows cs) || hasCharset cs

/-- Function `mime.charsets.lookup`: text types, JavaScript and JSON are UTF-8. -/
def charsetsLookup (mimeType : List Char) : Option String :=
  if (stripLeading "text/".data mimeType).isSome
      || (stripLeading "application/javascript".data mimeType).isSome
      || (stripLeading "application/json".data mimeType).isSome
  then some "UTF-8" else none

/-- Function `mime.lookup` for a bare extension; an excerpt of the table, the
default being `application/octet-stream`. -/
def mimeLookup (ext : String) : String :=
  let e := lower ext
  if e == "html" then "text/html"
  else if e == "txt" then "text/plain"
  else if e == "json" then "application/json"
  else "application/octet-stream"

/-- Express `res.set(field, value)`: a `Content-Type` without charset gets the
charset of its media type appended. -/
def Res.set (res : Res) (field value : String) : Except JSError Res :=
  let value :=
    if lower field == "content-type" && !hasCharset value.data then
      match charsetsLookup (value.data.takeWhile (fun c => c != ';')) with
      | some charset => value ++ "; charset=" ++ lower charset
      | none => value
    else value
  res.setHeader field value

/-- Express `res.type(type)`: a value with a `/` is taken as it is, anything
else is looked up as a file extension. -/
def Res.type (res : Res) (type : String) : Except JSError Res :=
  let ct := if type.data.contains '/' then type else mimeLookup type
  res.set "Content-Type" ct

/-- The media type of a `Content-Type` value: the text before the first `;`,
in lower case and without surrounding blanks. -/
def mediaType (ct : String) : String :=
  lower ⟨trimSpace (ct.data.takeWhile (fun c => c != ';'))⟩

/-- Express `setCharset(type, charset)`: the value with its charset parameter
set.  Parameters other than the charset do not occur in this program and are
not carried over. -/
def setCharset (type charset : String) : String :=
  if type == "" || charset == "" then type
  else mediaType type ++ "; charset=" ++ charset

/-! ## Conditional requests (package `fresh`) and `res.send` -/

/-- Library functions whose results are taken as given: the floating-point
reading of a numeral, and the digests, date parsers and text encoders of the
packages Express depends on. -/
structure Lib where
  /-- JavaScript's `Number(text)` for a text that is not a plain decimal
  numeral. -/
  number : String → NumberReading
  /-- The weak entity tag Express derives from a body (package `etag`). -/
  etag : String → String
  /-- Whether the first HTTP date parses to a time not after the second. -/
  httpDateLe : String → String → Bool
  /-- The text the final handler shows inside its page, already encoded:
  `Cannot METHOD path` for an unanswered request. -/
  pageText : Request → String
  /-- The text the final handler shows for an error thrown by a handler. -/
  errorText : JSError → String

/-- A header value that is truthy: present and not empty. -/
def truthyHeader : Option String → Option String
  | some s => if s == "" then none else some s
  | none => none

/-- Test of `/(?:^|,)\s*?no-cache\s*?(?:,|$)/`: one of the comma-separated
directives is `no-cache`. -/
def noCache (cacheControl : String) : Bool :=
  (splitAt ',' cacheControl.data).any (fun d => trimSpace d == "no-cache".data)

/-- Loop state of `parseTokenList`: position, token bounds, tokens so far. -/
structure TokenScan where
  i : Nat
  start : Nat
  stop : Nat
  list : List String

/-- Function `str.substring(a, b)`. -/
def substring (cs : List Char) (a b : Nat) : String :=
  ⟨(cs.drop a).take (b - a)⟩

/-- Function `parseTokenList` of package `fresh`: the comma-separated tokens
of a header value, without the blanks around them. -/
def parseTokenList (str : String) : List String :=
  let cs := str.data
  let st := cs.foldl
    (fun (st : TokenScan) c =>
      if c = ' ' then
        if st.start = st.stop then { st with i := st.i + 1, start := st.i + 1, stop := st.i + 1 }
        else { st with i := st.i + 1 }
      else if c = ',' then
        { i := st.i + 1, start := st.i + 1, stop := st.i + 1,
          list := st.list ++ [substring cs st.start st.stop] }
      else { st with i := st.i + 1, stop := st.i + 1 })
    { i := 0, start := 0, stop := 0, list := [] }
  st.list ++ [substring cs st.start st.stop]

/-- Whether no token of `If-None-Match` names the response's entity tag. -/
def etagStale (noneMatch : String) (etag : Option String) : Bool :=
  match truthyHeader etag with
  | none => true
  | some e =>
    !(parseTokenList noneMatch).any
      (fun m => m == e || m == "W/" ++ e || "W/" ++ m == e)

/-- Whether the response is newer than `If-Modified-Since`, or undated. -/
def modifiedStale (lib : Lib) (modifiedSince : String) (lastModified : Option String) : Bool :=
  match truthyHeader lastModified with
  | none => true
  | some lm => !lib.httpDateLe lm modifiedSince

/-- Function `fresh(reqHeaders, resHeaders)`: the client's cached copy is
still good.  False for an unconditional request, for `Cache-Control:
no-cache`, for a stale entity tag and for a stale date. -/
def fresh (lib : Lib) (reqHeaders : Headers) (etag lastModified : Option String) : Bool :=
  let modifiedSince := truthyHeader (reqHeaders.get "if-modified-since")
  let noneMatch := truthyHeader (reqHeaders.get "if-none-match")
  if modifiedSince.isNone && noneMatch.isNone then false
  else if (match truthyHeader (reqHeaders.get "cache-control") with
      | some cc => noCache cc
      | none => false) then false
  else if (match noneMatch with
      | some nm => nm != "*" && etagStale nm etag
      | none => false) then false
  else if (match modifiedSince with
      | some ms => modifiedStale lib ms lastModified
      | none => false) then false
  else true

/-- Getter `req.fresh` of Express: only `GET` and `HEAD`, only for a status
`2xx` or `304`. -/
def reqFresh (lib : Lib) (res : Res) : Bool :=
  if res.req.method ≠ .GET ∧ res.req.method ≠ .HEAD then false
  else if (200 ≤ res.statusCode ∧ res.statusCode < 300) ∨ res.statusCode = 304 then
    fresh lib res.req.headers (res.get "ETag") (res.get "Last-Modified")
  else false

/-- Step of `res.send`: a string body without `Content-Type` is HTML
(`if (!this.get('Content-Type')) this.type('html')`). -/
def Res.defaultType (res : Res) : Except JSError Res :=
  if (res.get "Content-Type").isNone then res.type "html" else pure res

/-- Step of `res.send`: a string is written as UTF-8, and the `Content-Type`
says so (`this.set('Content-Type', setCharset(type, 'utf-8'))`). -/
def Res.utf8Type (res : Res) : Except JSError Res :=
  match res.get "Content-Type" with
  | some t => res.set "Content-Type" (setCharset t "utf-8")
  | none => pure res

/-- First half of Express `res.send(body)` for a string body: default the
type to HTML, put the charset, then `Content-Length` and, unless one is set,
the `ETag`. -/
def Res.sendHeaders (lib : Lib) (res : Res) (body : String) : Except JSError Res := do
  let res ← res.defaultType
  let res ← res.utf8Type
  let generateETag := (res.get "ETag").isNone
  let res ← res.set "Content-Length" (toString body.utf8ByteSize)
  if generateETag then res.set "ETag" (lib.etag body) else pure res

/-- Second half of Express `res.send(body)`: turn a fresh conditional request
into `304`, strip the content headers and the body of a `204`/`304`, send no
body to `HEAD`, and end the response. -/
def Res.sendBody (lib : Lib) (res : Res) (body : String) : Except JSError Res := do
  let res := if reqFresh lib res then { res with statusCode := 304 } else res
  let stripped := res.statusCode = 204 ∨ res.statusCode = 304
  let res ← if stripped then do
      let r ← res.removeHeader "Content-Type"
      let r ← r.removeHeader "Content-Length"
      r.removeHeader "Transfer-Encoding"
    else pure res
  let chunk := if stripped then "" else body
  if res.req.method = .HEAD then pure (res.finish "") else pure (res.finish chunk)

/-- Express `res.send(body)` for a string body. -/
def Res.send (lib : Lib) (res : Res) (body : String) : Except JSError Res := do
  let res ← res.sendHeaders lib body
  res.sendBody lib body

/-! ## The route of the program (lines 5 to 7) -/

/-- The body the route sends. -/
def greeting : String :=
  "Hello from TickBoard side project on EKS via Harbor → GitHub Actions → Terraform!"

/-- The handler `(req, res) => { res.type('text/plain').send(greeting); }`.
It does not read `req`; `send` consults the request through `res.req`. -/
def rootHandler (lib : Lib) (_req : Request) (res : Res) : Except JSError Res := do
  let res ← res.type "text/plain"
  res.send lib greeting

/-! ## The Express router -/

/-- A route: its path pattern, the methods registered on it (lower case) and
its handler. -/
structure Route where
  path : String
  methods : List String
  handle : Lib → Request → Res → Except JSError Res

/-- The routes of the program: `app.get('/', rootHandler)`. -/
def routes : List Route :=
  [{ path := "/", methods := ["get"], handle := rootHandler }]

/-- Path test of a route layer for a pattern without parameters: non-strict,
anchored at both ends, letter case ignored, one trailing slash optional.  The
pattern `/` compiles to `^\/?$`. -/
def matchPath (pattern path : String) : Bool :=
  let base := if pattern.data.getLast? == some '/' then pattern.data.dropLast else pattern.data
  let p := (lower path).data
  let b := (lower ⟨base⟩).data
  p == b || p == b ++ ['/']

/-- Function `Route.prototype._handles_method`: `HEAD` is served by the `get`
handlers of a route that has no `head` handler. -/
def Route.handlesMethod (r : Route) (m : Method) : Bool :=
  if r.methods.contains "_all" then true
  else
    let name := lower m.name
    let name := if name == "head" && !r.methods.contains "head" then "get" else name
    r.methods.contains name

/-- Function `Route.prototype._options`: the methods of the route in upper
case, with the automatic `HEAD`. -/
def Route.options (r : Route) : List String :=
  (r.methods ++ (if r.methods.contains "get" && !r.methods.contains "head" then ["head"] else [])).map
    upper

/-- Who wrote the response. -/
inductive Responder where
  /-- A handler registered by the program. -/
  | route
  /-- The router's automatic reply to `OPTIONS`. -/
  | automaticOptions
  /-- The final handler: nothing answered (`404`). -/
  | notFound
  /-- The final handler: a handler threw (`500`). -/
  | failed (e : JSError)
  deriving DecidableEq, Repr

/-- A served request: who answered, and the response as sent. -/
structure Outcome where
  by_ : Responder
  res : Res

/-- Function `createHtmlDocument` of package `finalhandler`. -/
def createHtmlDocument (message : String) : String :=
  "<!DOCTYPE html>\n<html lang=\"en\">\n<head>\n<meta charset=\"utf-8\">\n<title>Error</title>\n</head>\n<body>\n<pre>"
    ++ message ++ "</pre>\n</body>\n</html>\n"

/-- Package `finalhandler`: the page sent when no route answered (`404`) or a
handler threw (`500`).  Nothing is written when the head is out already. -/
def finalhandler (lib : Lib) (res : Res) (err : Option JSError) : Res :=
  if res.finished then res
  else
    let status := if err.isSome then 500 else 404
    let message := match err with
      | some e => lib.errorText e
      | none => lib.pageText res.req
    let page := createHtmlDocument message
    let kept := res.headers.filter
      (fun kv => kv.1 != "content-encoding" && kv.1 != "content-language"
        && kv.1 != "content-range" && kv.1 != "content-security-policy"
        && kv.1 != "x-content-type-options" && kv.1 != "content-type"
        && kv.1 != "content-length")
    { res with
      statusCode := status
      headers :=
        [("content-security-policy", "default-src 'none'"),
         ("x-content-type-options", "nosniff"),
         ("content-type", "text/html; charset=utf-8"),
         ("content-length", toString page.utf8ByteSize)] ++ kept
      finished := true
      body := if res.req.method = .HEAD then "" else page }

/-- Function `sendOptionsResponse` of the router: `Allow` and a body listing
the methods. -/
def sendOptionsResponse (lib : Lib) (res : Res) (options : List String) : Except JSError Res := do
  let body := String.intercalate "," options
  let res ← res.set "Allow" body
  res.send lib body

/-- Function `appendMethods`: add the methods not listed yet. -/
def appendMethods (list addition : List String) : List String :=
  addition.foldl (fun acc m => if acc.contains m then acc else acc ++ [m]) list

/-- The router's walk over its routes (`Router.prototype.handle`).  The first
route whose path and method match runs its handler.  A route whose path
matches but whose method does not adds to the `OPTIONS` list.  At the end an
`OPTIONS` request with a non-empty list gets the automatic reply; every other
request goes to the final handler. -/
def Router.handle (lib : Lib) (req : Request) (res : Res) :
    List Route → List String → Outcome
  | [], options =>
    if req.method = .OPTIONS ∧ options ≠ [] then
      match sendOptionsResponse lib res options with
      | .ok r => { by_ := .automaticOptions, res := r }
      | .error e => { by_ := .failed e, res := finalhandler lib res (some e) }
    else { by_ := .notFound, res := finalhandler lib res none }
  | r :: rest, options =>
    if matchPath r.path req.path then
      if r.handlesMethod req.method then
        match r.handle lib req res with
        | .ok r => { by_ := .route, res := r }
        | .error e => { by_ := .failed e, res := finalhandler lib res (some e) }
      else
        Router.handle lib req res rest
          (if req.method = .OPTIONS then appendMethods options r.options else options)
    else Router.handle lib req res rest options

/-- Middleware `expressInit`: the response starts with status `200`, the
header `X-Powered-By`, and is tied to its request. -/
def initRes (req : Request) : Res :=
  { req := req, statusCode := 200, headers := [("x-powered-by", "Express")],
    finished := false, body := "" }

/-- The application: a request goes through `expressInit` and the router. -/
def app (lib : Lib) (req : Request) : Outcome :=
  Router.handle lib req (initRes req) routes []

/-- Status line of a response. -/
def Outcome.status (o : Outcome) : Nat := o.res.statusCode

/-- Value of the `Content-Type` header of a response, if it has one. -/
def Outcome.contentType (o : Outcome) : Option String := o.res.get "Content-Type"

/-- Body of a response. -/
def Outcome.body (o : Outcome) : String := o.res.body

/-! ## The process (lines 3 and 9 to 11) -/

/-- What becomes of a request that reaches a listening process. -/
inductive Served where
  /-- The application wrote a response. -/
  | answered (o : Outcome)
  /-- The socket was destroyed and nothing was sent. -/
  | dropped

/-- Node's HTTP server in front of the application.  A `CONNECT` request
raises the `connect` event instead of `request`; the program has no listener
for it, so Node destroys the socket.  Every other request is handed to the
application.  (Replies Node gives of its own accord to requests it does not
accept, such as a malformed one, are not part of this development.) -/
def handleRequest (lib : Lib) (req : Request) : Served :=
  if req.method = .CONNECT then .dropped else .answered (app lib req)

/-- What the process does that can be observed from outside. -/
inductive Effect where
  /-- Call of `app.listen` with its first argument. -/
  | listen (arg : JSValue)
  /-- The socket is bound: the `listening` event, which runs the callback. -/
  | bound (e : Endpoint)
  /-- Call of `console.log`: one line on standard output. -/
  | consoleLog (line : String)
  /-- The bind failed and nothing handles the error: the process dies. -/
  | uncaught (err : ListenError)
  /-- A request was dealt with. -/
  | served (s : Served)

/-- The process: the constant `PORT`, what it did so far (oldest first) and
whether it is accepting requests. -/
structure Proc where
  port : JSValue
  trace : List Effect
  listening : Bool

/-- The lines written to standard output. -/
def Proc.stdout (p : Proc) : List String :=
  p.trace.filterMap (fun e => match e with
    | .consoleLog line => some line
    | _ => none)

/-- The `listen` calls made. -/
def Proc.listenCalls (p : Proc) : List JSValue :=
  p.trace.filterMap (fun e => match e with
    | .listen arg => some arg
    | _ => none)

/-- Start-up: compute `PORT`, call `app.listen(PORT, callback)`.  In Express 4
`app.listen` hands its arguments to Node's `server.listen`: the callback is
the listener of the `listening` event and logs the line.  A failed bind is an
`error` event without listener, and a refused port an exception thrown by
`listen`; either ends the process. -/
def start (lib : Lib) (env : Env) (net : Net) (eph : Nat) : Proc × Net :=
  let port := PORT env
  match bindEndpoint net eph (listenTarget lib.number port) with
  | .ok (e, net1) =>
    ({ port := port
       trace := [.listen port, .bound e, .consoleLog (logLine port)]
       listening := true }, net1)
  | .error err =>
    ({ port := port, trace := [.listen port, .uncaught err], listening := false }, net)

/-- One request: a listening process deals with it through Node's server. -/
def serve (lib : Lib) (p : Proc) (req : Request) : Proc × Option Served :=
  if p.listening then
    ({ p with trace := p.trace ++ [.served (handleRequest lib req)] },
      some (handleRequest lib req))
  else (p, none)

/-- A sequence of requests, dealt with one after the other. -/
def serveAll (lib : Lib) (p : Proc) : List Request → Proc × List Served
  | [] => (p, [])
  | req :: rest =>
    match serve lib p req with
    | (p1, some o) => ((serveAll lib p1 rest).1, o :: (serveAll lib p1 rest).2)
    | (p1, none) => (p1, [])

/-- A whole run: start-up, then the requests; what became of each, in order. -/
def run (lib : Lib) (env : Env) (net : Net) (eph : Nat) (reqs : List Request) : List Served :=
  (serveAll lib (start lib env net eph).1 reqs).2

/-- The response of a served request, if one was written. -/
def Served.outcome : Served → Option Outcome
  | .answered o => some o
  | .dropped => none

/-! ## Sample inputs -/

/-- An environment in which only `PORT` is set. -/
def envPort (value : String) : Env :=
  fun name => if name = "PORT" then some value else none

/-- The environment without `PORT`. -/
def envEmpty : Env := fun _ => none

/-- A stand-in for the library functions, to evaluate the program on concrete
requests.  The general theorems below hold for every `Lib`; the port texts
evaluated with it are plain decimal numerals, for which `number` is not
consulted. -/
def sampleLib : Lib :=
  { number := fun _ => .notANumber
    etag := fun body => "W/\"" ++ toString body.utf8ByteSize ++ "-digest\""
    httpDateLe := fun a b => a == b
    pageText := fun req => "Cannot " ++ req.method.name ++ " " ++ req.path
    errorText := fun _ => "Internal Server Error" }

/-- A request to the root path without query, headers or body. -/
def rootRequest (m : Method) : Request :=
  { method := m, path := "/", query := "", headers := [], body := "", path_ne := by decide }

/-- A conditional `GET /`: any cached copy will do. -/
def conditionalGet : Request :=
  { method := .GET, path := "/", query := "", headers := [("if-none-match", "*")], body := "",
    path_ne := by decide }

/-- A conditional `HEAD /`. -/
def conditionalHead : Request :=
  { method := .HEAD, path := "/", query := "", headers := [("if-none-match", "*")], body := "",
    path_ne := by decide }

/-- A `GET /?lang=en` with content-negotiation headers and a body. -/
def decoratedGet : Request :=
  { method := .GET, path := "/", query := "lang=en",
    headers := [("accept", "application/json"), ("accept-charset", "iso-8859-1")],
    body := "ignored", path_ne := by decide }

/-- A `GET /?page=2` without headers. -/
def queryGet : Request :=
  { method := .GET, path := "/", query := "page=2", headers := [], body := "",
    path_ne := by decide }

/-- A `GET /nonexistent`. -/
def otherPathGet : Request :=
  { method := .GET, path := "/nonexistent", query := "", headers := [], body := "",
    path_ne := by decide }

/-- The same request with method `GET`. -/
def asGet (req : Request) : Request :=
  { req with method := .GET }

/-- The request is a conditional request for which the greeting, with its
entity tag and no date, is fresh. -/
def freshGreeting (lib : Lib) (req : Request) : Bool :=
  fresh lib req.headers (some (lib.etag greeting)) none

/-! ## Port and start-up -/

theorem PORT_of_set (env : Env) (s : String) (h : env "PORT" = some s) (hs : s ≠ "") :
    PORT env = .str s := by
  simp [PORT, processEnv, h, JSValue.or, JSValue.truthy, hs]

theorem PORT_of_unset (env : Env) (h : env "PORT" = none ∨ env "PORT" = some "") :
    PORT env = .num 3000 := by
  rcases h with h | h <;> simp [PORT, processEnv, h, JSValue.or, JSValue.truthy]

theorem PORT_cases (env : Env) :
    (PORT env = .num 3000 ∧ (env "PORT" = none ∨ env "PORT" = some "")) ∨
      (∃ s, s ≠ "" ∧ env "PORT" = some s ∧ PORT env = .str s) := by
  cases h : env "PORT" with
  | none => exact Or.inl ⟨PORT_of_unset env (Or.inl h), Or.inl rfl⟩
  | some s =>
    by_cases hs : s = ""
    · subst hs
      exact Or.inl ⟨PORT_of_unset env (Or.inr h), Or.inr rfl⟩
    · exact Or.inr ⟨s, hs, rfl, PORT_of_set env s h hs⟩

theorem digitsValue_acc (ds : List Char) (acc : Nat) :
    digitsValue acc ds = acc * 10 ^ ds.length + digitsValue 0 ds := by
  induction ds generalizing acc with
  | nil => simp [digitsValue]
  | cons d ds ih =>
    have h1 : digitsValue acc (d :: ds) = digitsValue (10 * acc + (d.toNat - 48)) ds := rfl
    have h2 : digitsValue 0 (d :: ds) = digitsValue (10 * 0 + (d.toNat - 48)) ds := rfl
    rw [h1, h2, ih, ih (10 * 0 + (d.toNat - 48))]
    simp [pow_succ]
    ring

theorem digitChar_value (k : Nat) (hk : k < 10) :
    (Nat.digitChar k).toNat - 48 = k ∧ (Nat.digitChar k).isDigit = true := by
  interval_cases k <;> decide

theorem toDigitsCore_value (fuel n : Nat) (ds : List Char) (h : n < fuel) :
    digitsValue 0 (Nat.toDigitsCore 10 fuel n ds) = n * 10 ^ ds.length + digitsValue 0 ds := by
  induction fuel generalizing n ds with
  | zero => omega
  | succ fuel ih =>
    have hd := (digitChar_value (n % 10) (Nat.mod_lt _ (by decide))).1
    have hcons : digitsValue 0 (Nat.digitChar (n % 10) :: ds)
        = (n % 10) * 10 ^ ds.length + digitsValue 0 ds := by
      have : digitsValue 0 (Nat.digitChar (n % 10) :: ds)
          = digitsValue (10 * 0 + ((Nat.digitChar (n % 10)).toNat - 48)) ds := rfl
      rw [this, digitsValue_acc, hd]; simp
    unfold Nat.toDigitsCore
    by_cases h0 : n / 10 = 0
    · simp only [h0, if_true]
      rw [hcons]
      have : n % 10 = n := Nat.mod_eq_of_lt (by omega)
      rw [this]
    · simp only [h0, if_false]
      rw [ih (n / 10) _ (by omega), hcons]
      simp only [List.length_cons, pow_succ]
      have key : n * 10 ^ ds.length = (10 * (n / 10) + n % 10) * 10 ^ ds.length := by
        rw [Nat.div_add_mod]
      rw [key]
      ring

theorem toDigitsCore_digits (fuel n : Nat) (ds : List Char)
    (hds : ds.all Char.isDigit = true) :
    (Nat.toDigitsCore 10 fuel n ds).all Char.isDigit = true := by
  induction fuel generalizing n ds with
  | zero => simpa [Nat.toDigitsCore] using hds
  | succ fuel ih =>
    have hd := (digitChar_value (n % 10) (Nat.mod_lt _ (by decide))).2
    have hcons : (Nat.digitChar (n % 10) :: ds).all Char.isDigit = true := by
      simp only [List.all_cons, hd, hds, Bool.and_self]
    unfold Nat.toDigitsCore
    by_cases h0 : n / 10 = 0
    · simp only [h0, if_true]; exact hcons
    · simp only [h0, if_false]; exact ih _ _ hcons

theorem toDigitsCore_ne_nil (fuel n : Nat) (ds : List Char) (h : n < fuel) :
    Nat.toDigitsCore 10 fuel n ds ≠ [] := by
  induction fuel generalizing n ds with
  | zero => omega
  | succ fuel ih =>
    unfold Nat.toDigitsCore
    by_cases h0 : n / 10 = 0
    · simp [h0]
    · simp only [h0, if_false]; exact ih _ _ (by omega)

theorem toString_data (n : Nat) : (toString n).data = Nat.toDigits 10 n := rfl

theorem isDecimal_toString (n : Nat) : isDecimal (toString n) = true := by
  have h1 := toDigitsCore_digits (n + 1) n [] rfl
  have h2 := toDigitsCore_ne_nil (n + 1) n [] (by omega)
  simp only [isDecimal, toString_data, Nat.toDigits, h1, Bool.and_true]
  cases h : Nat.toDigitsCore 10 (n + 1) n [] with
  | nil => exact absurd h h2
  | cons _ _ => rfl

theorem decimalValue_toString (n : Nat) : decimalValue (toString n) = n := by
  have h := toDigitsCore_value (n + 1) n [] (by omega)
  simpa [decimalValue, toString_data, Nat.toDigits, digitsValue] using h

theorem toString_ne_empty (n : Nat) : toString n ≠ "" := by
  intro h
  have hd := isDecimal_toString n
  rw [h] at hd
  exact absurd hd (by decide)

theorem listenTarget_toString (number : String → NumberReading) (P : Nat) (h1 : 1 ≤ P)
    (h2 : P ≤ 65535) : listenTarget number (.str (toString P)) = .port P := by
  have h0 : ¬ P = 0 := by omega
  simp [listenTarget, isDecimal_toString, decimalValue_toString, ListenTarget.ofNat, h0, h2]

theorem start_listenCalls (lib : Lib) (env : Env) (net : Net) (eph : Nat) :
    (start lib env net eph).1.listenCalls = [PORT env] := by
  cases hb : bindEndpoint net eph (listenTarget lib.number (PORT env)) with
  | error err => simp [start, hb, Proc.listenCalls]
  | ok r => simp [start, hb, Proc.listenCalls]

theorem start_of_bind_ok (lib : Lib) (env : Env) (net net1 : Net) (eph : Nat) (e : Endpoint)
    (h : bindEndpoint net eph (listenTarget lib.number (PORT env)) = .ok (e, net1)) :
    start lib env net eph =
      ({ port := PORT env
         trace := [.listen (PORT env), .bound e, .consoleLog (logLine (PORT env))]
         listening := true }, net1) := by
  simp [start, h]

theorem start_of_bind_error (lib : Lib) (env : Env) (net : Net) (eph : Nat) (err : ListenError)
    (h : bindEndpoint net eph (listenTarget lib.number (PORT env)) = .error err) :
    start lib env net eph =
      ({ port := PORT env, trace := [.listen (PORT env), .uncaught err], listening := false },
        net) := by
  simp [start, h]

theorem serveAll_stdout (lib : Lib) (p : Proc) (reqs : List Request) :
    (serveAll lib p reqs).1.stdout = p.stdout := by
  induction reqs generalizing p with
  | nil => rfl
  | cons req rest ih =>
    unfold serveAll serve
    by_cases hl : p.listening = true
    · simp only [hl, if_true]
      rw [ih]
      simp [Proc.stdout, List.filterMap_append]
    · simp [hl]

theorem serveAll_listenCalls (lib : Lib) (p : Proc) (reqs : List Request) :
    (serveAll lib p reqs).1.listenCalls = p.listenCalls := by
  induction reqs generalizing p with
  | nil => rfl
  | cons req rest ih =>
    unfold serveAll serve
    by_cases hl : p.listening = true
    · simp only [hl, if_true]
      rw [ih]
      simp [Proc.listenCalls, List.filterMap_append]
    · simp [hl]

theorem serveAll_outcomes (lib : Lib) (p : Proc) (reqs : List Request)
    (hl : p.listening = true) : (serveAll lib p reqs).2 = reqs.map (handleRequest lib) := by
  induction reqs generalizing p with
  | nil => rfl
  | cons req rest ih =>
    unfold serveAll serve
    simp only [hl, if_true, List.map_cons]
    rw [ih _ rfl]

theorem serveAll_not_listening (lib : Lib) (p : Proc) (reqs : List Request)
    (hl : p.listening = false) : (serveAll lib p reqs).2 = [] := by
  cases reqs with
  | nil => rfl
  | cons req rest => simp [serveAll, serve, hl]

/-! ### C2 -/

/-- C2: the value handed to `listen` is `PORT`; `PORT` is the value of the
environment variable when it is set and not empty, and `3000` when it is unset
or empty; and when the variable holds the decimal text of a port `P` between
1 and 65535, the listener binds TCP port `P` (if it is free). -/
theorem listen_port_from_environment (lib : Lib) (env : Env) (net : Net) (eph : Nat) :
    (start lib env net eph).1.listenCalls = [PORT env] ∧
    (∀ s, env "PORT" = some s → s ≠ "" → PORT env = .str s) ∧
    (env "PORT" = none ∨ env "PORT" = some "" →
      PORT env = .num 3000 ∧ listenTarget lib.number (PORT env) = .port 3000 ∧
      (Endpoint.tcp 3000 ∉ net →
        (start lib env net eph).2 = .tcp 3000 :: net ∧ (start lib env net eph).1.listening = true)) ∧
    (∀ P, 1 ≤ P → P ≤ 65535 → env "PORT" = some (toString P) →
      PORT env = .str (toString P) ∧ listenTarget lib.number (PORT env) = .port P ∧
      (Endpoint.tcp P ∉ net →
        (start lib env net eph).2 = .tcp P :: net ∧ (start lib env net eph).1.listening = true)) := by
  refine ⟨start_listenCalls lib env net eph, PORT_of_set env, ?_, ?_⟩
  · intro h
    have hp := PORT_of_unset env h
    have ht : listenTarget lib.number (PORT env) = .port 3000 := by rw [hp]; rfl
    refine ⟨hp, ht, fun hfree => ?_⟩
    have hb : bindEndpoint net eph (listenTarget lib.number (PORT env)) = .ok (.tcp 3000, .tcp 3000 :: net) := by
      rw [ht]; simp [bindEndpoint, hfree]
    rw [start_of_bind_ok lib env net _ eph _ hb]
    exact ⟨rfl, rfl⟩
  · intro P h1 h2 h
    have hp := PORT_of_set env (toString P) h (toString_ne_empty P)
    have ht : listenTarget lib.number (PORT env) = .port P := by
      rw [hp]; exact listenTarget_toString lib.number P h1 h2
    refine ⟨hp, ht, fun hfree => ?_⟩
    have hb : bindEndpoint net eph (listenTarget lib.number (PORT env)) = .ok (.tcp P, .tcp P :: net) := by
      rw [ht]; simp [bindEndpoint, hfree]
    rw [start_of_bind_ok lib env net _ eph _ hb]
    exact ⟨rfl, rfl⟩

/-! ### C6 -/

/-- C6, as stated, fails: with `PORT=8080` in the environment the constant
`PORT` is the string `"8080"`, and that string is what `listen` receives and
what the log line interpolates. -/
theorem port_is_string_when_set :
    (PORT (envPort "8080")).typeof = JSType.string ∧
    (PORT (envPort "8080")).typeof ≠ JSType.number ∧
    (start sampleLib (envPort "8080") [] 0).1.listenCalls = [JSValue.str "8080"] := by
  decide

/-- C6, amended: `PORT` is the number `3000` exactly when the variable is
unset or empty, and is the unconverted string value of the variable exactly
when that is set and not empty; this same value is passed to `listen` and, on
a successful bind, interpolated into the log line. -/
theorem port_type (lib : Lib) (env : Env) (net : Net) (eph : Nat) :
    ((PORT env).typeof = .number ↔ (env "PORT" = none ∨ env "PORT" = some "")) ∧
    ((PORT env).typeof = .string ↔ ∃ s, s ≠ "" ∧ env "PORT" = some s) ∧
    ((PORT env).typeof = .number → PORT env = .num 3000) ∧
    (∀ s, (PORT env).typeof = .string → env "PORT" = some s → PORT env = .str s) ∧
    (start lib env net eph).1.listenCalls = [PORT env] ∧
    (∀ line ∈ (start lib env net eph).1.stdout, line = logLine (PORT env)) := by
  have hlog : ∀ line ∈ (start lib env net eph).1.stdout, line = logLine (PORT env) := by
    intro line hline
    unfold start at hline
    cases hb : bindEndpoint net eph (listenTarget lib.number (PORT env)) with
    | error err => simp [hb, Proc.stdout] at hline
    | ok r => simpa [hb, Proc.stdout] using hline
  rcases PORT_cases env with ⟨hp, hu⟩ | ⟨s, hs, he, hp⟩
  · refine ⟨?_, ?_, ?_, ?_, start_listenCalls lib env net eph, hlog⟩
    · simp [hp, JSValue.typeof, hu]
    · rw [hp]
      simp only [JSValue.typeof, false_iff, not_exists, not_and, reduceCtorEq]
      intro s hs he
      rcases hu with hu | hu <;> rw [hu] at he <;> simp_all
    · intro _; exact hp
    · intro s h; rw [hp] at h; simp [JSValue.typeof] at h
  · refine ⟨?_, ?_, ?_, ?_, start_listenCalls lib env net eph, hlog⟩
    · rw [hp]
      simp only [JSValue.typeof, false_iff, not_or, reduceCtorEq]
      rw [he]
      exact ⟨by simp, by simpa using hs⟩
    · rw [hp]
      simp only [JSValue.typeof, true_iff]
      exact ⟨s, hs, he⟩
    · intro h; rw [hp] at h; simp [JSValue.typeof] at h
    · intro s1 _ he1
      rw [he] at he1
      rw [hp]; simp_all

/-! ### C7 -/

/-- C7: when the bind succeeds the process logs exactly one line, after the
socket is bound, and the line is `Server listening on port ` followed by the
value passed to `listen`: `Server listening on port 3000` when `PORT` is unset
or empty, `Server listening on port ` followed by the text of `PORT`
otherwise.  When the bind fails nothing is logged.  Serving requests,
whichever and however many, adds nothing to standard output. -/
theorem startup_log_line (lib : Lib) (env : Env) (net : Net) (eph : Nat)
    (reqs : List Request) :
    (start lib env net eph).1.listenCalls = [PORT env] ∧
    (∀ e net1, bindEndpoint net eph (listenTarget lib.number (PORT env)) = .ok (e, net1) →
      (start lib env net eph).1.trace =
        [.listen (PORT env), .bound e,
          .consoleLog ("Server listening on port " ++ (PORT env).toStr)] ∧
      (serveAll lib (start lib env net eph).1 reqs).1.stdout =
        ["Server listening on port " ++ (PORT env).toStr] ∧
      (env "PORT" = none ∨ env "PORT" = some "" →
        PORT env = .num 3000 ∧
        (serveAll lib (start lib env net eph).1 reqs).1.stdout =
          ["Server listening on port 3000"]) ∧
      (∀ s, s ≠ "" → env "PORT" = some s →
        PORT env = .str s ∧
        (serveAll lib (start lib env net eph).1 reqs).1.stdout =
          ["Server listening on port " ++ s])) ∧
    (∀ err, bindEndpoint net eph (listenTarget lib.number (PORT env)) = .error err →
      (start lib env net eph).1.trace = [.listen (PORT env), .uncaught err] ∧
      (serveAll lib (start lib env net eph).1 reqs).1.stdout = []) := by
  refine ⟨start_listenCalls lib env net eph, ?_, ?_⟩
  · intro e net1 hb
    rw [serveAll_stdout, start_of_bind_ok lib env net net1 eph e hb]
    refine ⟨rfl, rfl, ?_, ?_⟩
    · intro h
      have hp := PORT_of_unset env h
      refine ⟨hp, ?_⟩
      rw [hp]
      rfl
    · intro s hs h
      have hp := PORT_of_set env s h hs
      refine ⟨hp, ?_⟩
      rw [hp]
      rfl
  · intro err hb
    rw [serveAll_stdout, start_of_bind_error lib env net eph err hb]
    exact ⟨rfl, rfl⟩

/-- C7 at concrete inputs: without `PORT` the one line is `Server listening on
port 3000`, also after two requests; with `PORT=8080` it is `Server listening
on port 8080`; a start on a bound port logs nothing. -/
theorem startup_log_line_witness :
    (serveAll sampleLib (start sampleLib envEmpty [] 0).1
        [rootRequest .GET, otherPathGet]).1.stdout = ["Server listening on port 3000"] ∧
    (start sampleLib envEmpty [] 0).1.stdout = ["Server listening on port 3000"] ∧
    (start sampleLib (envPort "8080") [] 0).1.stdout = ["Server listening on port 8080"] ∧
    (start sampleLib envEmpty [Endpoint.tcp 3000] 0).1.stdout = [] :=
  have h := startup_log_line sampleLib envEmpty [] 0 [rootRequest .GET, otherPathGet]
  ⟨((h.2.1 (.tcp 3000) [.tcp 3000] rfl).2.2.1 (Or.inl rfl)).2, by decide, by decide, by decide⟩

/-! ### C9 -/

/-- C9: when the TCP port the server is started on is bound already, the
start-up fails with `EADDRINUSE` as an uncaught error: the process is not
listening, it made exactly one `listen` call, it logged nothing, it serves no
request, and the table of bound endpoints is as it was. -/
theorem second_instance_fails (lib : Lib) (env : Env) (net : Net) (eph p : Nat)
    (reqs : List Request)
    (ht : listenTarget lib.number (PORT env) = .port p) (hused : Endpoint.tcp p ∈ net) :
    start lib env net eph =
      ({ port := PORT env, trace := [.listen (PORT env), .uncaught .addrInUse],
         listening := false }, net) ∧
    (start lib env net eph).1.listening = false ∧
    (start lib env net eph).1.listenCalls = [PORT env] ∧
    (serveAll lib (start lib env net eph).1 reqs).1.stdout = [] ∧
    (serveAll lib (start lib env net eph).1 reqs).1.listenCalls = [PORT env] ∧
    run lib env net eph reqs = [] ∧
    (start lib env net eph).2 = net := by
  have hb : bindEndpoint net eph (listenTarget lib.number (PORT env)) = .error .addrInUse := by
    rw [ht]; simp [bindEndpoint, hused]
  have hs := start_of_bind_error lib env net eph _ hb
  refine ⟨hs, ?_, start_listenCalls lib env net eph, ?_, ?_, ?_, ?_⟩
  · rw [hs]
  · rw [serveAll_stdout, hs]; rfl
  · rw [serveAll_listenCalls, hs]; rfl
  · unfold run
    rw [serveAll_not_listening]
    rw [hs]
  · rw [hs]

/-- C9 at a concrete input: a first instance started without `PORT` binds
port 3000; a second one started the same way fails and leaves the binding of
the first in place. -/
theorem second_instance_fails_witness :
    (start sampleLib envEmpty [] 0).1.listening = true ∧
    (start sampleLib envEmpty [] 0).2 = [Endpoint.tcp 3000] ∧
    (start sampleLib envEmpty [Endpoint.tcp 3000] 0).1.listening = false ∧
    (start sampleLib envEmpty [Endpoint.tcp 3000] 0).1.stdout = [] ∧
    (start sampleLib envEmpty [Endpoint.tcp 3000] 0).2 = [Endpoint.tcp 3000] :=
  have h := second_instance_fails sampleLib envEmpty [Endpoint.tcp 3000] 0 3000 []
    (by decide) (by decide)
  ⟨by decide, by decide, h.2.1, by simpa [serveAll] using h.2.2.2.1, h.2.2.2.2.2.2⟩



/-! ## The route -/

theorem type_plain (req : Request) :
    (initRes req).type "text/plain" =
      .ok { req := req, statusCode := 200,
            headers := [("content-type", "text/plain; charset=utf-8"),
              ("x-powered-by", "Express")],
            finished := false, body := "" } := by
  rfl

theorem sendHeaders_greeting (lib : Lib) (req : Request) :
    Res.sendHeaders lib
        { req := req, statusCode := 200,
          headers := [("content-type", "text/plain; charset=utf-8"),
            ("x-powered-by", "Express")],
          finished := false, body := "" } greeting =
      .ok { req := req, statusCode := 200,
            headers := [("etag", lib.etag greeting), ("content-length", "85"),
              ("content-type", "text/plain; charset=utf-8"), ("x-powered-by", "Express")],
            finished := false, body := "" } := by
  rfl

theorem reqFresh_greeting (lib : Lib) (req : Request) :
    reqFresh lib
        { req := req, statusCode := 200,
          headers := [("etag", lib.etag greeting), ("content-length", "85"),
            ("content-type", "text/plain; charset=utf-8"), ("x-powered-by", "Express")],
          finished := false, body := "" } =
      (decide (req.method = .GET ∨ req.method = .HEAD) && freshGreeting lib req) := by
  simp only [reqFresh, freshGreeting]
  by_cases h : req.method = .GET
  · simp [h]
    rfl
  · by_cases h2 : req.method = .HEAD
    · simp [h2]
      rfl
    · simp [h, h2]

theorem rootHandler_stale (lib : Lib) (req0 req : Request)
    (hf : (decide (req.method = .GET ∨ req.method = .HEAD) && freshGreeting lib req) = false) :
    rootHandler lib req0 (initRes req) =
      .ok { req := req, statusCode := 200,
            headers := [("etag", lib.etag greeting), ("content-length", "85"),
              ("content-type", "text/plain; charset=utf-8"), ("x-powered-by", "Express")],
            finished := true, body := if req.method = .HEAD then "" else greeting } := by
  have hfr := reqFresh_greeting lib req
  rw [hf] at hfr
  simp only [rootHandler, type_plain, Res.send, sendHeaders_greeting, Res.sendBody, hfr,
    Bind.bind, Except.bind]
  by_cases hh : req.method = .HEAD
  · simp [hh, Res.finish, pure, Except.pure]
  · simp [hh, Res.finish, pure, Except.pure]

theorem rootHandler_fresh (lib : Lib) (req0 req : Request)
    (hf : (decide (req.method = .GET ∨ req.method = .HEAD) && freshGreeting lib req) = true) :
    rootHandler lib req0 (initRes req) =
      .ok { req := req, statusCode := 304,
            headers := [("etag", lib.etag greeting), ("x-powered-by", "Express")],
            finished := true, body := "" } := by
  have hfr := reqFresh_greeting lib req
  rw [hf] at hfr
  simp only [rootHandler, type_plain, Res.send, sendHeaders_greeting, Res.sendBody, hfr,
    Bind.bind, Except.bind]
  by_cases hh : req.method = .HEAD
  · simp [hh, Res.finish, pure, Except.pure]
    rfl
  · simp [hh, Res.finish, pure, Except.pure]
    rfl


/-! ## The router -/

theorem toLower_eq_slash (c : Char) (h : c.toLower = '/') : c = '/' := by
  unfold Char.toLower at h
  by_cases hc : c.toNat ≥ 65 ∧ c.toNat ≤ 90
  · exfalso
    simp only [hc, and_self, if_true] at h
    obtain ⟨h1, h2⟩ := hc
    generalize c.toNat = n at h h1 h2
    interval_cases n <;> exact absurd h (by decide)
  · simpa [hc] using h

theorem matchPath_root (p : String) (hne : p ≠ "") : matchPath "/" p = true ↔ p = "/" := by
  have hm : matchPath "/" p =
      (p.data.map Char.toLower == [] || p.data.map Char.toLower == ['/']) := rfl
  rw [hm]
  constructor
  · intro h
    cases p with
    | mk data =>
      cases data with
      | nil => exact absurd rfl hne
      | cons c rest =>
        cases rest with
        | nil =>
          simp only [List.map_cons, List.map_nil, Bool.or_eq_true, beq_iff_eq, List.cons.injEq,
            and_true, reduceCtorEq, false_or] at h
          rw [toLower_eq_slash c h]
        | cons d rest => simp at h
  · rintro rfl
    decide

theorem handlesMethod_root (m : Method) :
    Route.handlesMethod { path := "/", methods := ["get"], handle := rootHandler } m =
      decide (m = .GET ∨ m = .HEAD) := by
  cases m <;> decide

theorem app_unmatched (lib : Lib) (req : Request) (hp : req.path ≠ "/") :
    app lib req = { by_ := .notFound, res := finalhandler lib (initRes req) none } := by
  have hm : matchPath "/" req.path = false := by
    rw [Bool.eq_false_iff]
    intro h
    exact hp ((matchPath_root req.path req.path_ne).1 h)
  simp [app, routes, Router.handle, hm]

theorem app_route (lib : Lib) (req : Request) (hp : req.path = "/")
    (hm : req.method = .GET ∨ req.method = .HEAD) :
    app lib req =
      match rootHandler lib req (initRes req) with
      | .ok r => { by_ := .route, res := r }
      | .error e => { by_ := .failed e, res := finalhandler lib (initRes req) (some e) } := by
  have hmp : matchPath "/" req.path = true := (matchPath_root req.path req.path_ne).2 hp
  simp [app, routes, Router.handle, hmp, handlesMethod_root, hm]

theorem app_root_options (lib : Lib) (req : Request) (hp : req.path = "/")
    (hm : req.method = .OPTIONS) :
    app lib req =
      { by_ := .automaticOptions
        res :=
          { req := req, statusCode := 200,
            headers := [("etag", lib.etag "GET,HEAD"), ("content-length", "8"),
              ("content-type", "text/html; charset=utf-8"), ("allow", "GET,HEAD"),
              ("x-powered-by", "Express")],
            finished := true, body := "GET,HEAD" } } := by
  have hmp : matchPath "/" req.path = true := (matchPath_root req.path req.path_ne).2 hp
  have ho : appendMethods []
      (Route.options { path := "/", methods := ["get"], handle := rootHandler }) =
      ["GET", "HEAD"] := by decide
  have h1 : Res.set (initRes req) "Allow" "GET,HEAD" =
      .ok { req := req, statusCode := 200,
            headers := [("allow", "GET,HEAD"), ("x-powered-by", "Express")],
            finished := false, body := "" } := rfl
  have h2 : Res.sendHeaders lib
      { req := req, statusCode := 200,
        headers := [("allow", "GET,HEAD"), ("x-powered-by", "Express")],
        finished := false, body := "" } "GET,HEAD" =
      .ok { req := req, statusCode := 200,
            headers := [("etag", lib.etag "GET,HEAD"), ("content-length", "8"),
              ("content-type", "text/html; charset=utf-8"), ("allow", "GET,HEAD"),
              ("x-powered-by", "Express")],
            finished := false, body := "" } := rfl
  have hi : String.intercalate "," ["GET", "HEAD"] = "GET,HEAD" := by decide
  simp [app, routes, Router.handle, hmp, handlesMethod_root, hm, ho, sendOptionsResponse, hi, h1,
    Res.send, h2, Res.sendBody, reqFresh, Res.finish, Bind.bind, Except.bind, pure, Except.pure]

theorem app_unmatched_method (lib : Lib) (req : Request) (hp : req.path = "/")
    (h1 : req.method ≠ .GET) (h2 : req.method ≠ .HEAD) (h3 : req.method ≠ .OPTIONS) :
    app lib req = { by_ := .notFound, res := finalhandler lib (initRes req) none } := by
  have hmp : matchPath "/" req.path = true := (matchPath_root req.path req.path_ne).2 hp
  simp [app, routes, Router.handle, hmp, handlesMethod_root, h1, h2, h3]

theorem finalhandler_notFound (lib : Lib) (req : Request) :
    (finalhandler lib (initRes req) none).statusCode = 404 ∧
    (finalhandler lib (initRes req) none).finished = true ∧
    (finalhandler lib (initRes req) none).body =
      (if req.method = .HEAD then "" else createHtmlDocument (lib.pageText req)) := by
  simp [finalhandler, initRes]

theorem createHtmlDocument_ne_greeting (message : String) :
    createHtmlDocument message ≠ greeting := by
  intro h
  have hg : greeting.data.head? = some 'H' := by decide
  have h1 := congrArg (fun s => s.data.head?) h
  simp only [createHtmlDocument, String.data_append, List.cons_append, List.head?_cons, hg] at h1
  exact absurd h1 (by decide)


/-! ## The handler never throws -/

theorem bind_ok {α β : Type} (a : α) (f : α → Except JSError β) :
    (Except.ok a >>= f) = f a := rfl

theorem setHeader_ok (res : Res) (name value : String) (h : res.finished = false) :
    ∃ r, res.setHeader name value = .ok r ∧ r.finished = false ∧ r.req = res.req := by
  simp [Res.setHeader, h]

theorem set_ok (res : Res) (field value : String) (h : res.finished = false) :
    ∃ r, res.set field value = .ok r ∧ r.finished = false ∧ r.req = res.req := by
  unfold Res.set
  exact setHeader_ok res field _ h

theorem removeHeader_ok (res : Res) (name : String) (h : res.finished = false) :
    ∃ r, res.removeHeader name = .ok r ∧ r.finished = false ∧ r.req = res.req := by
  simp [Res.removeHeader, h]

theorem type_ok (res : Res) (type : String) (h : res.finished = false) :
    ∃ r, res.type type = .ok r ∧ r.finished = false ∧ r.req = res.req := by
  unfold Res.type
  exact set_ok res _ _ h

theorem defaultType_ok (res : Res) (h : res.finished = false) :
    ∃ r, res.defaultType = .ok r ∧ r.finished = false ∧ r.req = res.req := by
  unfold Res.defaultType
  by_cases hc : (res.get "Content-Type").isNone = true
  · rw [if_pos hc]; exact type_ok res _ h
  · rw [if_neg hc]; exact ⟨res, rfl, h, rfl⟩

theorem utf8Type_ok (res : Res) (h : res.finished = false) :
    ∃ r, res.utf8Type = .ok r ∧ r.finished = false ∧ r.req = res.req := by
  unfold Res.utf8Type
  cases res.get "Content-Type" with
  | none => exact ⟨res, rfl, h, rfl⟩
  | some t => exact set_ok res "Content-Type" (setCharset t "utf-8") h

theorem sendHeaders_ok (lib : Lib) (res : Res) (body : String) (h : res.finished = false) :
    ∃ r, res.sendHeaders lib body = .ok r ∧ r.finished = false ∧ r.req = res.req := by
  obtain ⟨r1, e1, f1, q1⟩ := defaultType_ok res h
  obtain ⟨r2, e2, f2, q2⟩ := utf8Type_ok r1 f1
  obtain ⟨r3, e3, f3, q3⟩ := set_ok r2 "Content-Length" (toString body.utf8ByteSize) f2
  unfold Res.sendHeaders
  simp only [e1, bind_ok, e2, e3]
  by_cases hg : (r2.get "ETag").isNone = true
  · obtain ⟨r4, e4, f4, q4⟩ := set_ok r3 "ETag" (lib.etag body) f3
    refine ⟨r4, ?_, f4, ((q4.trans q3).trans q2).trans q1⟩
    rw [if_pos hg]; exact e4
  · refine ⟨r3, ?_, f3, (q3.trans q2).trans q1⟩
    rw [if_neg hg]; rfl

theorem sendBody_ok (lib : Lib) (res : Res) (body : String) (h : res.finished = false) :
    ∃ r, res.sendBody lib body = .ok r ∧ r.finished = true ∧ r.req = res.req := by
  unfold Res.sendBody
  simp only [Bind.bind, Except.bind, pure, Except.pure]
  generalize hr : (if reqFresh lib res = true then { res with statusCode := 304 } else res) = r0
  have f0 : r0.finished = false := by
    rw [← hr]; split <;> simp [h]
  have q0 : r0.req = res.req := by
    rw [← hr]; split <;> rfl
  by_cases hs : r0.statusCode = 204 ∨ r0.statusCode = 304
  · simp only [hs, if_true]
    obtain ⟨r1, e1, f1, q1⟩ := removeHeader_ok r0 "Content-Type" f0
    obtain ⟨r2, e2, f2, q2⟩ := removeHeader_ok r1 "Content-Length" f1
    obtain ⟨r3, e3, f3, q3⟩ := removeHeader_ok r2 "Transfer-Encoding" f2
    simp only [e1, e2, e3]
    split <;> simp [Res.finish, f3, q3, q2, q1, q0]
  · simp only [hs, if_false]
    split <;> simp [Res.finish, f0, q0]

theorem send_ok (lib : Lib) (res : Res) (body : String) (h : res.finished = false) :
    ∃ r, res.send lib body = .ok r ∧ r.finished = true ∧ r.req = res.req := by
  obtain ⟨r1, e1, f1, q1⟩ := sendHeaders_ok lib res body h
  obtain ⟨r2, e2, f2, q2⟩ := sendBody_ok lib r1 body f1
  unfold Res.send
  simp only [e1, bind_ok]
  exact ⟨r2, e2, f2, q2.trans q1⟩

theorem rootHandler_ok (lib : Lib) (req0 : Request) (res : Res) (h : res.finished = false) :
    ∃ r, rootHandler lib req0 res = .ok r ∧ r.finished = true ∧ r.req = res.req := by
  obtain ⟨r1, e1, f1, q1⟩ := type_ok res "text/plain" h
  obtain ⟨r2, e2, f2, q2⟩ := send_ok lib r1 greeting f1
  unfold rootHandler
  simp only [e1, bind_ok]
  exact ⟨r2, e2, f2, q2.trans q1⟩


/-! ## What the application answers -/

theorem app_get_head_root (lib : Lib) (req : Request) (hp : req.path = "/")
    (hm : req.method = .GET ∨ req.method = .HEAD) :
    app lib req =
      { by_ := .route
        res :=
          if freshGreeting lib req = true then
            { req := req, statusCode := 304,
              headers := [("etag", lib.etag greeting), ("x-powered-by", "Express")],
              finished := true, body := "" }
          else
            { req := req, statusCode := 200,
              headers := [("etag", lib.etag greeting), ("content-length", "85"),
                ("content-type", "text/plain; charset=utf-8"), ("x-powered-by", "Express")],
              finished := true, body := if req.method = .HEAD then "" else greeting } } := by
  rw [app_route lib req hp hm]
  by_cases hf : freshGreeting lib req = true
  · rw [rootHandler_fresh lib req req (by simp [hm, hf]), if_pos hf]
  · rw [rootHandler_stale lib req req (by simp [hm, hf]), if_neg hf]

theorem fresh_congr (lib : Lib) (h1 h2 : Headers) (etag lastModified : Option String)
    (hn : h1.get "if-none-match" = h2.get "if-none-match")
    (hs : h1.get "if-modified-since" = h2.get "if-modified-since")
    (hc : h1.get "cache-control" = h2.get "cache-control") :
    fresh lib h1 etag lastModified = fresh lib h2 etag lastModified := by
  simp only [fresh, hn, hs, hc]

theorem fresh_unconditional (lib : Lib) (h : Headers) (etag lastModified : Option String)
    (hn : h.get "if-none-match" = none) (hs : h.get "if-modified-since" = none) :
    fresh lib h etag lastModified = false := by
  simp [fresh, hn, hs, truthyHeader]

theorem run_listening (lib : Lib) (env : Env) (net : Net) (eph : Nat) (reqs : List Request)
    (hl : (start lib env net eph).1.listening = true) :
    run lib env net eph reqs = reqs.map (handleRequest lib) :=
  serveAll_outcomes lib _ reqs hl

theorem run_getElem (lib : Lib) (env : Env) (net : Net) (eph : Nat) (reqs : List Request)
    (n : Nat) (o : Outcome) (req : Request)
    (ho : (run lib env net eph reqs)[n]? = some (.answered o)) (hr : reqs[n]? = some req) :
    o = app lib req := by
  cases hl : (start lib env net eph).1.listening with
  | false =>
    have : run lib env net eph reqs = [] := serveAll_not_listening lib _ reqs hl
    rw [this] at ho
    simp at ho
  | true =>
    rw [run_listening lib env net eph reqs hl, List.getElem?_map, hr] at ho
    simp only [Option.map_some', Option.some.injEq, handleRequest] at ho
    split at ho
    · exact absurd ho (by simp)
    · simpa using ho.symm

/-- The freshness test at concrete requests: a `GET /` whose `If-None-Match`
names another entity tag, or that carries `If-Modified-Since`, or
`Cache-Control: no-cache`, is not fresh and gets the `200`; one that names the
greeting's entity tag gets the `304`. -/
theorem fresh_examples :
    (app sampleLib { conditionalGet with headers := [("if-none-match", "\"other\"")] }).status
      = 200 ∧
    (app sampleLib { conditionalGet with
        headers := [("if-none-match", "*"), ("if-modified-since", "x")] }).status = 200 ∧
    (app sampleLib { conditionalGet with
        headers := [("if-none-match", "*"), ("cache-control", "no-cache")] }).status = 200 ∧
    (app sampleLib { conditionalGet with
        headers := [("if-none-match", "\"other\", W/\"85-digest\"")] }).status = 304 := by
  decide

/-! ### C1 -/

/-- C1, as stated, fails: a `GET /` that carries `If-None-Match: *` is
answered `304`, without `Content-Type` and with an empty body. -/
theorem conditional_get_not_200 :
    conditionalGet.method = Method.GET ∧ conditionalGet.path = "/" ∧
    (app sampleLib conditionalGet).status = 304 ∧
    (app sampleLib conditionalGet).contentType = none ∧
    (app sampleLib conditionalGet).body = "" := by
  decide

/-- C1, amended: a `GET /` is answered by the registered handler; unless it
is a conditional request for which the greeting is fresh, the response has
status 200, media type `text/plain` and the greeting as its whole body.  A
request without `If-None-Match` and `If-Modified-Since` is never fresh.  A
fresh conditional request is answered `304` without `Content-Type` and body. -/
theorem get_root_response (lib : Lib) (req : Request)
    (hm : req.method = .GET) (hp : req.path = "/") :
    (app lib req).by_ = .route ∧
    (freshGreeting lib req = false →
      (app lib req).status = 200 ∧
      (app lib req).contentType.map mediaType = some "text/plain" ∧
      (app lib req).body = greeting) ∧
    (req.headers.get "if-none-match" = none → req.headers.get "if-modified-since" = none →
      freshGreeting lib req = false) ∧
    (freshGreeting lib req = true →
      (app lib req).status = 304 ∧ (app lib req).contentType = none ∧
      (app lib req).body = "") := by
  rw [app_get_head_root lib req hp (Or.inl hm)]
  refine ⟨rfl, ?_, ?_, ?_⟩
  · intro hf
    rw [if_neg (by simp [hf])]
    refine ⟨rfl, rfl, ?_⟩
    simp [Outcome.body, hm]
  · intro hn hs
    exact fresh_unconditional lib _ _ _ hn hs
  · intro hf
    rw [if_pos hf]
    exact ⟨rfl, rfl, rfl⟩

/-- C1 at a concrete input: a plain `GET /`. -/
theorem get_root_response_witness :
    (app sampleLib (rootRequest .GET)).status = 200 ∧
    (app sampleLib (rootRequest .GET)).contentType.map mediaType = some "text/plain" ∧
    (app sampleLib (rootRequest .GET)).body = greeting :=
  (get_root_response sampleLib (rootRequest .GET) rfl rfl).2.1 (by decide)


/-! ### C3 -/

/-- C3: a request whose path is not `/`, whatever its method, is not given to
the greeting handler; the final handler answers it `404`, and the body of the
response is not the greeting. -/
theorem other_path_not_greeted (lib : Lib) (req : Request) (hp : req.path ≠ "/") :
    (app lib req).by_ = .notFound ∧ (app lib req).by_ ≠ .route ∧
    (app lib req).status = 404 ∧ (app lib req).body ≠ greeting := by
  rw [app_unmatched lib req hp]
  obtain ⟨hs, _, hb⟩ := finalhandler_notFound lib req
  refine ⟨rfl, by simp, hs, ?_⟩
  simp only [Outcome.body, hb]
  split
  · decide
  · exact createHtmlDocument_ne_greeting _

/-- C3 at a concrete input: `GET /nonexistent`. -/
theorem other_path_not_greeted_witness :
    otherPathGet.path ≠ "/" ∧
    (app sampleLib otherPathGet).by_ = .notFound ∧
    (app sampleLib otherPathGet).status = 404 ∧
    (app sampleLib otherPathGet).body ≠ greeting :=
  have h := other_path_not_greeted sampleLib otherPathGet (by decide)
  ⟨by decide, h.1, h.2.2.1, h.2.2.2⟩

/-! ### C4 -/

/-- C4, as stated, fails: `HEAD /` is not a `GET`, yet the router gives it to
the greeting handler, and the response is the `200` / `text/plain` one (with
an empty body). -/
theorem head_root_runs_handler :
    (rootRequest .HEAD).path = "/" ∧ (rootRequest .HEAD).method ≠ Method.GET ∧
    (app sampleLib (rootRequest .HEAD)).by_ = Responder.route ∧
    (app sampleLib (rootRequest .HEAD)).status = 200 ∧
    (app sampleLib (rootRequest .HEAD)).contentType = some "text/plain; charset=utf-8" ∧
    (app sampleLib (rootRequest .HEAD)).body = "" := by
  decide

/-- C4, amended, for a request to `/` whose method is not `GET`.
`HEAD` is given to the greeting handler and gets the status and the headers
of the same request sent as `GET`, with an empty body: `200` with
`Content-Type: text/plain; charset=utf-8` and `Content-Length: 85`, or, for a
fresh conditional request, `304` without `Content-Type` and `Content-Length`.
`CONNECT` is not handed to the application: the socket is destroyed and no
response is sent.  Every other method is handed to the application and not to
the greeting handler: `OPTIONS` gets the router's automatic reply (`200`,
`Allow: GET,HEAD`, media type `text/html`, body `GET,HEAD`), the remaining
methods the final handler's `404` page (media type `text/html`); the body is
never the greeting. -/
theorem non_get_root (lib : Lib) (req : Request) (hp : req.path = "/")
    (hm : req.method ≠ .GET) :
    (req.method = .HEAD →
      handleRequest lib req = .answered (app lib req) ∧
      (app lib req).by_ = .route ∧
      (app lib req).status = (app lib (asGet req)).status ∧
      (app lib req).res.headers = (app lib (asGet req)).res.headers ∧
      (app lib req).body = "" ∧
      (freshGreeting lib req = false →
        (app lib req).status = 200 ∧
        (app lib req).contentType = some "text/plain; charset=utf-8" ∧
        (app lib req).res.get "Content-Length" = some "85") ∧
      (freshGreeting lib req = true →
        (app lib req).status = 304 ∧
        (app lib req).contentType = none ∧
        (app lib req).res.get "Content-Length" = none)) ∧
    (req.method = .CONNECT → handleRequest lib req = .dropped) ∧
    (req.method = .OPTIONS →
      handleRequest lib req = .answered (app lib req) ∧
      (app lib req).by_ = .automaticOptions ∧
      (app lib req).status = 200 ∧
      (app lib req).res.get "Allow" = some "GET,HEAD" ∧
      (app lib req).contentType.map mediaType = some "text/html" ∧
      (app lib req).body = "GET,HEAD" ∧
      (app lib req).body ≠ greeting) ∧
    (req.method ≠ .HEAD → req.method ≠ .CONNECT → req.method ≠ .OPTIONS →
      handleRequest lib req = .answered (app lib req) ∧
      (app lib req).by_ = .notFound ∧
      (app lib req).status = 404 ∧
      (app lib req).contentType.map mediaType = some "text/html" ∧
      (app lib req).body = createHtmlDocument (lib.pageText req) ∧
      (app lib req).body ≠ greeting) := by
  refine ⟨?_, ?_, ?_, ?_⟩
  · intro hh
    have hg := app_get_head_root lib (asGet req) hp (Or.inl rfl)
    have hfg : freshGreeting lib (asGet req) = freshGreeting lib req := rfl
    rw [hfg] at hg
    have hd := app_get_head_root lib req hp (Or.inr hh)
    refine ⟨by simp [handleRequest, hh], ?_⟩
    by_cases hf : freshGreeting lib req = true
    · rw [if_pos hf] at hg hd
      rw [hg, hd]
      exact ⟨rfl, rfl, rfl, rfl, fun h => absurd hf (by simp [h]), fun _ => ⟨rfl, rfl, rfl⟩⟩
    · rw [if_neg hf] at hg hd
      rw [hg, hd]
      refine ⟨rfl, rfl, rfl, by simp [Outcome.body, hh], fun _ => ⟨rfl, rfl, rfl⟩,
        fun h => absurd h hf⟩
  · intro hc
    simp [handleRequest, hc]
  · intro ho
    have hb : ("GET,HEAD" : String) ≠ greeting := by decide
    refine ⟨by simp [handleRequest, ho], ?_⟩
    rw [app_root_options lib req hp ho]
    exact ⟨rfl, rfl, rfl, rfl, rfl, hb⟩
  · intro hh hc ho
    have ha := app_unmatched_method lib req hp hm hh ho
    obtain ⟨hs, _, hb⟩ := finalhandler_notFound lib req
    refine ⟨by simp [handleRequest, hc], ?_⟩
    rw [ha]
    refine ⟨rfl, hs, rfl, ?_, ?_⟩
    · simp only [Outcome.body, hb, hh, if_false]
    · simp only [Outcome.body, hb, hh, if_false]
      exact createHtmlDocument_ne_greeting _

/-- C4 at concrete inputs: `POST /` gets the `404` page, and a `HEAD /` that
carries `If-None-Match: *` gets the `304` of the same `GET`. -/
theorem non_get_root_witness :
    (rootRequest .POST).path = "/" ∧ (rootRequest .POST).method ≠ Method.GET ∧
    (app sampleLib (rootRequest .POST)).by_ = .notFound ∧
    (app sampleLib (rootRequest .POST)).status = 404 ∧
    (app sampleLib (rootRequest .POST)).body ≠ greeting ∧
    (app sampleLib conditionalHead).status = 304 ∧
    (app sampleLib conditionalHead).contentType = none ∧
    (app sampleLib (rootRequest .OPTIONS)).res.get "Allow" = some "GET,HEAD" ∧
    handleRequest sampleLib (rootRequest .CONNECT) = .dropped :=
  have h := (non_get_root sampleLib (rootRequest .POST) rfl (by decide)).2.2.2
    (by decide) (by decide) (by decide)
  ⟨rfl, by decide, h.2.1, h.2.2.1, h.2.2.2.2.2, by decide, by decide, by decide, rfl⟩

/-! ### C8 -/

/-- C8: no request makes the application fail.  The greeting handler returns
normally on every response object whose head is not yet written, whatever the
request; every request ends with a finished response that was not produced by
an error; and a request that does not match the route (another path, or a
method other than `GET` and `HEAD`) is answered by the framework: the final
handler's `404` or the automatic `OPTIONS` reply. -/
theorem no_request_raises (lib : Lib) (req : Request) :
    (∀ (req0 : Request) (res : Res), res.finished = false →
      ∃ r, rootHandler lib req0 res = .ok r ∧ r.finished = true) ∧
    (∀ e, (app lib req).by_ ≠ .failed e) ∧
    (app lib req).res.finished = true ∧
    (¬ (req.path = "/" ∧ (req.method = .GET ∨ req.method = .HEAD)) →
      (app lib req).by_ = .notFound ∨ (app lib req).by_ = .automaticOptions) := by
  refine ⟨fun req0 res h => ?_, ?_⟩
  · obtain ⟨r, e, f, _⟩ := rootHandler_ok lib req0 res h
    exact ⟨r, e, f⟩
  by_cases hp : req.path = "/"
  · by_cases hm : req.method = .GET ∨ req.method = .HEAD
    · rw [app_get_head_root lib req hp hm]
      refine ⟨by simp, ?_, fun h => absurd ⟨hp, hm⟩ h⟩
      split <;> rfl
    · have h1 : req.method ≠ .GET := fun h => hm (Or.inl h)
      have h2 : req.method ≠ .HEAD := fun h => hm (Or.inr h)
      by_cases ho : req.method = .OPTIONS
      · rw [app_root_options lib req hp ho]
        exact ⟨by simp, rfl, fun _ => Or.inr rfl⟩
      · rw [app_unmatched_method lib req hp h1 h2 ho]
        exact ⟨by simp, (finalhandler_notFound lib req).2.1, fun _ => Or.inl rfl⟩
  · rw [app_unmatched lib req hp]
    exact ⟨by simp, (finalhandler_notFound lib req).2.1, fun _ => Or.inl rfl⟩


/-! ### C5 -/

/-- C5, as stated, fails: in one run, a plain `GET /` followed by a `GET /`
with `If-None-Match: *` gets `200` with the greeting, then `304` with an empty
body. -/
theorem two_gets_differ :
    (run sampleLib envEmpty [] 0 [rootRequest .GET, conditionalGet]).map
        (fun s => s.outcome.map Outcome.status) = [some 200, some 304] ∧
    (run sampleLib envEmpty [] 0 [rootRequest .GET, conditionalGet]).map
        (fun s => s.outcome.map Outcome.body) = [some greeting, some ""] := by
  decide

/-- C5, amended: a `GET /` that is repeated gets the same response.  In any
two runs of the server, whatever the environment, the port, the bound
endpoints and the requests served before, if the `n`-th request of the one
and the `m`-th of the other are `GET /` with the same headers, their responses
have the same status, content type and body. -/
theorem repeated_get_same_response (lib : Lib) (env1 env2 : Env) (net1 net2 : Net)
    (eph1 eph2 : Nat) (reqs1 reqs2 : List Request) (n m : Nat) (r1 r2 : Request)
    (o1 o2 : Outcome)
    (hr1 : reqs1[n]? = some r1) (hr2 : reqs2[m]? = some r2)
    (ho1 : (run lib env1 net1 eph1 reqs1)[n]? = some (.answered o1))
    (ho2 : (run lib env2 net2 eph2 reqs2)[m]? = some (.answered o2))
    (hm1 : r1.method = .GET) (hp1 : r1.path = "/")
    (hm2 : r2.method = .GET) (hp2 : r2.path = "/")
    (hh : r1.headers = r2.headers) :
    o1.status = o2.status ∧ o1.contentType = o2.contentType ∧ o1.body = o2.body := by
  rw [run_getElem lib env1 net1 eph1 reqs1 n o1 r1 ho1 hr1,
    run_getElem lib env2 net2 eph2 reqs2 m o2 r2 ho2 hr2,
    app_get_head_root lib r1 hp1 (Or.inl hm1), app_get_head_root lib r2 hp2 (Or.inl hm2)]
  have hf : freshGreeting lib r1 = freshGreeting lib r2 := by
    simp only [freshGreeting, hh]
  rw [hf, hm1, hm2]
  by_cases h : freshGreeting lib r2 = true
  · simp only [h, if_true]; exact ⟨rfl, rfl, rfl⟩
  · simp only [h]; exact ⟨rfl, rfl, rfl⟩

/-- C5 at a concrete input: the first request of a run on port 3000 and the
third request of a run on port 8080, a `GET /` and a `GET /?page=2`. -/
theorem repeated_get_same_response_witness :
    (app sampleLib (rootRequest .GET)).status = (app sampleLib queryGet).status ∧
    (app sampleLib (rootRequest .GET)).contentType = (app sampleLib queryGet).contentType ∧
    (app sampleLib (rootRequest .GET)).body = (app sampleLib queryGet).body ∧
    (app sampleLib queryGet).body = greeting :=
  have h := repeated_get_same_response sampleLib envEmpty (envPort "8080") []
    [Endpoint.tcp 3000] 0 0 [rootRequest .GET] [otherPathGet, conditionalGet, queryGet]
    0 2 (rootRequest .GET) queryGet (app sampleLib (rootRequest .GET))
    (app sampleLib queryGet) rfl rfl rfl rfl rfl rfl rfl rfl rfl
  ⟨h.1, h.2.1, h.2.2, by decide⟩

/-! ### C10 -/

/-- C10, as stated, fails: two `GET /` that differ only in their headers (one
carries `If-None-Match: *`) get different statuses, content types and
bodies. -/
theorem header_changes_response :
    (rootRequest .GET).method = conditionalGet.method ∧
    (rootRequest .GET).path = conditionalGet.path ∧
    (rootRequest .GET).query = conditionalGet.query ∧
    (rootRequest .GET).body = conditionalGet.body ∧
    (app sampleLib (rootRequest .GET)).status ≠ (app sampleLib conditionalGet).status ∧
    (app sampleLib (rootRequest .GET)).contentType ≠ (app sampleLib conditionalGet).contentType ∧
    (app sampleLib (rootRequest .GET)).body ≠ (app sampleLib conditionalGet).body := by
  decide

/-- C10, amended: the response to a `GET /` depends on the request only
through the headers `If-None-Match`, `If-Modified-Since` and `Cache-Control`.
Two `GET /` that agree on these three, and differ in query string, body or
any other header, get the same status, the same `Content-Type` and the same
body; the handler itself does not read its `req` argument. -/
theorem response_independent_of_request (lib : Lib) (r1 r2 : Request)
    (hm1 : r1.method = .GET) (hp1 : r1.path = "/")
    (hm2 : r2.method = .GET) (hp2 : r2.path = "/")
    (hn : r1.headers.get "if-none-match" = r2.headers.get "if-none-match")
    (hs : r1.headers.get "if-modified-since" = r2.headers.get "if-modified-since")
    (hc : r1.headers.get "cache-control" = r2.headers.get "cache-control") :
    (app lib r1).status = (app lib r2).status ∧
    (app lib r1).contentType = (app lib r2).contentType ∧
    (app lib r1).body = (app lib r2).body ∧
    (∀ (req0 req1 : Request) (res : Res), rootHandler lib req0 res = rootHandler lib req1 res) := by
  rw [app_get_head_root lib r1 hp1 (Or.inl hm1), app_get_head_root lib r2 hp2 (Or.inl hm2)]
  have hf : freshGreeting lib r1 = freshGreeting lib r2 :=
    fresh_congr lib _ _ _ _ hn hs hc
  rw [hf, hm1, hm2]
  refine ⟨?_, ?_, ?_, fun _ _ _ => rfl⟩
  all_goals
    by_cases h : freshGreeting lib r2 = true
    · simp only [h, if_true]; rfl
    · simp only [h]; rfl

/-- C10 at a concrete input: a plain `GET /` and a `GET /?lang=en` with
`Accept`, `Accept-Charset` and a body. -/
theorem response_independent_of_request_witness :
    (rootRequest .GET).query ≠ decoratedGet.query ∧
    (rootRequest .GET).headers ≠ decoratedGet.headers ∧
    (rootRequest .GET).body ≠ decoratedGet.body ∧
    (app sampleLib (rootRequest .GET)).status = (app sampleLib decoratedGet).status ∧
    (app sampleLib (rootRequest .GET)).contentType = (app sampleLib decoratedGet).contentType ∧
    (app sampleLib (rootRequest .GET)).body = (app sampleLib decoratedGet).body ∧
    (app sampleLib decoratedGet).body = greeting :=
  have h := response_independent_of_request sampleLib (rootRequest .GET) decoratedGet
    rfl rfl rfl rfl (by decide) (by decide) (by decide)
  ⟨by decide, by decide, by decide, h.1, h.2.1, h.2.2.1, by decide⟩

end Server
